import Mathlib

/-!
Shallow embedding of src/cosl/coordinated_workers/coordinator.py.

Python dicts are modelled as association lists in insertion order; Python
sets are modelled by lists with set-like operations (membership, subset).
External collaborators that live outside this file tree (the ClusterProvider
of the cluster interface, the CertHandler, the S3Requirer, the json module)
are modelled by their observable outputs, recorded as fields of the state:
the code under verification only consumes those outputs.
-/

namespace Cosl

/-- Association-list lookup of a string key, mirroring Python dict access. -/
def getVal (d : List (String × String)) (k : String) : Option String :=
  (d.find? (fun p => p.1 == k)).map Prod.snd

/-- Python containment test for a dict key. -/
def hasKey (d : List (String × String)) (k : String) : Bool :=
  (getVal d k).isSome

/-- Python dict assignment: replace the value at the key when present,
append otherwise (insertion order preserved). -/
def dictInsert (d : List (String × String)) (k v : String) : List (String × String) :=
  if d.any (fun p => p.1 == k) then
    d.map (fun p => if p.1 == k then (k, v) else p)
  else
    d ++ [(k, v)]

/-- Lookup in a role-count mapping with Python default of 0, mirroring
roles.get(role, 0). -/
def getCount (roles : List (String × Nat)) (r : String) : Nat :=
  ((roles.find? (fun p => p.1 == r)).map Prod.snd).getD 0

/-- The keys of a role-count mapping, mirroring roles.keys(). -/
def roleKeys (roles : List (String × Nat)) : List String :=
  roles.map Prod.fst

/-- Boolean subset test on lists used with set semantics,
mirroring set(xs).issubset(ys). -/
def subsetB (xs ys : List String) : Bool :=
  xs.all (fun x => ys.contains x)

/-- ClusterRolesConfig of coordinator.py: roles, meta roles, minimal and
recommended deployment requirements. -/
structure ClusterRolesConfig where
  roles : List String
  meta_roles : List (String × List String)
  minimal_deployment : List String
  recommended_deployment : List (String × Nat)

/-- validate_roles_config of coordinator.py: the four assert statements, in
source order; a failed assert raises, modelled as an error value. -/
def validate_roles_config (rc : ClusterRolesConfig) : Except String Unit :=
  if !subsetB (rc.meta_roles.map Prod.fst) rc.roles then .error "AssertionError" else
  if !(rc.meta_roles.all (fun p => subsetB p.2 rc.roles)) then .error "AssertionError" else
  if !subsetB rc.minimal_deployment rc.roles then .error "AssertionError" else
  if !subsetB (rc.recommended_deployment.map Prod.fst) rc.roles then .error "AssertionError" else
  .ok ()

/-- Observable state of the ClusterProvider (repository code outside this
tree): the result of gather_roles() and the has_workers flag, recorded as a
snapshot since the coordinator only consumes them. -/
structure ClusterProvider where
  gathered_roles : List (String × Nat)
  has_workers : Bool

/-- Observable state of the CertHandler: the enabled flag and the three
pieces of TLS material, each possibly absent. -/
structure CertHandler where
  enabled : Bool
  server_cert : Option String
  private_key : Option String
  ca_cert : Option String

/-- One logging-relation unit as seen by loki_endpoints_by_unit. The
endpoint field models relation.data of the unit: none when the key
"endpoint" is absent; some none when present but json.loads raises on it;
some (some obj) when it parses to the object obj (string-valued fields). -/
structure LokiUnit where
  name : String
  endpoint : Option (Option (List (String × String)))

/-- Coordinator state: the configuration plus the observable outputs of the
external collaborators consumed by the methods under verification. The
fields workers_config_value, privkey_secret_id and tracing_receivers_getter
record the return values of the caller-supplied getters and of
grant_privkey. -/
structure Coordinator where
  roles_config : ClusterRolesConfig
  cluster : ClusterProvider
  leader : Bool
  s3_data : List (String × String)
  cert_handler : CertHandler
  workers_config_value : String
  privkey_secret_id : String
  loki_units : List LokiUnit
  is_coherent_override : Option (ClusterProvider → ClusterRolesConfig → Bool)
  is_recommended_override : Option (ClusterProvider → ClusterRolesConfig → Bool)
  tracing_receivers_getter : Option (List (String × String))

/-- Coordinator.is_coherent: a caller-supplied checker fully replaces the
default rule; the default is set(roles.keys()).issuperset(minimal_deployment). -/
def Coordinator.is_coherent (c : Coordinator) : Bool :=
  match c.is_coherent_override with
  | some f => f c.cluster c.roles_config
  | none =>
    c.roles_config.minimal_deployment.all
      (fun r => (roleKeys c.cluster.gathered_roles).contains r)

/-- Coordinator.missing_roles: minimal_deployment minus the gathered role
keys, with set semantics (membership is what matters). -/
def Coordinator.missing_roles (c : Coordinator) : List String :=
  c.roles_config.minimal_deployment.filter
    (fun r => !(roleKeys c.cluster.gathered_roles).contains r)

/-- The for loop of Coordinator.is_recommended: return false as soon as a
recommended role has fewer workers than required, true when the loop ends. -/
def recommendedLoop (roles : List (String × Nat)) : List (String × Nat) → Bool
  | [] => true
  | (role, min_n) :: rest =>
    if getCount roles role < min_n then false
    else recommendedLoop roles rest

/-- Coordinator.is_recommended: a caller-supplied checker fully replaces the
default; otherwise none when recommended_deployment is empty, else the loop
over the recommended role minimums. -/
def Coordinator.is_recommended (c : Coordinator) : Option Bool :=
  match c.is_recommended_override with
  | some f => some (f c.cluster c.roles_config)
  | none =>
    if c.roles_config.recommended_deployment.isEmpty then none
    else some (recommendedLoop c.cluster.gathered_roles c.roles_config.recommended_deployment)

/-- Coordinator.tls_available: enabled and all three certs present. -/
def Coordinator.tls_available (c : Coordinator) : Bool :=
  c.cert_handler.enabled
    && c.cert_handler.server_cert.isSome
    && c.cert_handler.private_key.isSome
    && c.cert_handler.ca_cert.isSome

/-- Character class of a URL scheme after the first character, as in
urllib.parse: letters, digits, plus, minus, dot. -/
def isSchemeChar (ch : Char) : Bool :=
  ch.isAlphanum || ch == '+' || ch == '-' || ch == '.'

/-- The characters strictly before the first colon, none when there is no
colon at all. -/
def takeUntilColon : List Char → Option (List Char)
  | [] => none
  | c :: cs => if c == ':' then some [] else (takeUntilColon cs).map (c :: ·)

/-- The scheme urlparse extracts from a URL string: the nonempty prefix
before the first colon when it starts with a letter followed by scheme
characters, lowercased; the empty string otherwise. -/
def urlScheme (s : String) : String :=
  match takeUntilColon s.data with
  | none => ""
  | some [] => ""
  | some (c :: cs) =>
    if c.isAlpha && cs.all isSchemeChar then String.mk ((c :: cs).map Char.toLower)
    else ""

/-- The scheme-stripping step of _s3_config: re.sub applied to the anchored
pattern built from the parsed scheme removes the literal prefix
scheme followed by colon-slash-slash when the string starts with it. -/
def stripScheme (s : String) : String :=
  let pat := (urlScheme s).data ++ [':', '/', '/']
  if pat.isPrefixOf s.data then String.mk (s.data.drop pat.length) else s

/-- The s3 configuration dict built by _s3_config, one field per key it sets. -/
structure S3Config where
  insecure : Bool
  endpoint : String
  region : String
  access_key_id : String
  secret_access_key : String
  bucket_name : String
deriving DecidableEq

/-- The body of the property named with a leading underscore in the source,
s3_config here: raise S3NotFoundError unless the connection info is nonempty
and carries the keys bucket, endpoint, access-key and secret-key; otherwise
build the adapted configuration. -/
def s3_config (s3_data : List (String × String)) : Except String S3Config :=
  if !(!s3_data.isEmpty
      && hasKey s3_data "bucket"
      && hasKey s3_data "endpoint"
      && hasKey s3_data "access-key"
      && hasKey s3_data "secret-key") then
    .error "s3 integration inactive"
  else
    let endpoint := (getVal s3_data "endpoint").getD ""
    .ok { insecure := !("https://".data.isPrefixOf endpoint.data)
          endpoint := stripScheme endpoint
          region := (getVal s3_data "region").getD ""
          access_key_id := (getVal s3_data "access-key").getD ""
          secret_access_key := (getVal s3_data "secret-key").getD ""
          bucket_name := (getVal s3_data "bucket").getD "" }

/-- Coordinator.s3_ready: the s3 configuration is readable (the dict it
returns is never empty, so Python truthiness is just success). -/
def Coordinator.s3_ready (c : Coordinator) : Bool :=
  (s3_config c.s3_data).isOk

/-- The loop of loki_endpoints_by_unit over the (flattened) logging-relation
units, carrying the endpoints dict: a unit with no endpoint key is skipped;
a present endpoint that json.loads cannot parse raises; a parsed object
without the url key raises; otherwise the url is recorded under the unit
name. -/
def lokiLoop : List LokiUnit → List (String × String) → Except String (List (String × String))
  | [], acc => .ok acc
  | u :: rest, acc =>
    match u.endpoint with
    | none => lokiLoop rest acc
    | some none => .error "JSONDecodeError"
    | some (some obj) =>
      match getVal obj "url" with
      | none => .error "KeyError"
      | some url => lokiLoop rest (dictInsert acc u.name url)

/-- Coordinator.loki_endpoints_by_unit: fold the loop over all units of all
logging relations starting from the empty dict. -/
def loki_endpoints_by_unit (units : List LokiUnit) : Except String (List (String × String)) :=
  lokiLoop units []

/-- The bundle passed to ClusterProvider.publish_data by update_cluster. -/
structure PublishedBundle where
  worker_config : String
  loki_endpoints : List (String × String)
  ca_cert : Option String
  server_cert : Option String
  privkey_secret_id : Option String
  tracing_receivers : Option (List (String × String))
deriving DecidableEq

/-- Result of one invocation of update_cluster: the two pebble layers are
always configured first; published records the bundle handed to
publish_data, none when the method returned before publishing. -/
structure UpdateClusterResult where
  nginx_layer_configured : Bool
  exporter_layer_configured : Bool
  published : Option PublishedBundle

/-- Coordinator.update_cluster: configure both pebble layers, stop without
publishing when incoherent, stop when not leader, otherwise assemble the
bundle (the loki collection may raise, aborting the call) and publish it. -/
def Coordinator.update_cluster (c : Coordinator) : Except String UpdateClusterResult :=
  if !c.is_coherent then .ok ⟨true, true, none⟩
  else if !c.leader then .ok ⟨true, true, none⟩
  else
    match loki_endpoints_by_unit c.loki_units with
    | .error e => .error e
    | .ok loki =>
      .ok ⟨true, true, some
        { worker_config := c.workers_config_value
          loki_endpoints := loki
          ca_cert := if c.tls_available then c.cert_handler.ca_cert else none
          server_cert := if c.tls_available then c.cert_handler.server_cert else none
          privkey_secret_id := if c.tls_available then some c.privkey_secret_id else none
          tracing_receivers := c.tracing_receivers_getter }⟩

/-- Whether an invocation of update_cluster reaches publish_data. -/
def Coordinator.publishes (c : Coordinator) : Bool :=
  match c.update_cluster with
  | .ok r => r.published.isSome
  | .error _ => false

/-- One status entry added by add_status. -/
inductive StatusEntry where
  | blocked (msg : String)
  | active (msg : String)
deriving DecidableEq

/-- Python truthiness of an Optional bool: None and False are falsy. -/
def pyTruthyOptBool : Option Bool → Bool
  | none => false
  | some b => b

/-- Coordinator._on_collect_unit_status: the two unconditional consistency
checks, then the s3 and recommended branch, in source order. -/
def Coordinator.collect_unit_status (c : Coordinator) : List StatusEntry :=
  (if !c.cluster.has_workers then [StatusEntry.blocked "[consistency] Missing any worker relation."] else [])
  ++ (if !c.is_coherent then [StatusEntry.blocked "[consistency] Cluster inconsistent."] else [])
  ++ (if !c.s3_ready then [StatusEntry.blocked "[consistency] Missing S3 integration."]
      else if !pyTruthyOptBool c.is_recommended then [StatusEntry.active "[coordinator] Degraded."]
      else [StatusEntry.active ""])

/-- The notification kinds whose handlers the constructor registers. -/
inductive EventKind where
  | collectUnitStatus
  | configChanged
  | nginxPebbleReady
  | nginxExporterPebbleReady
  | s3CredentialsChanged
  | s3CredentialsGone
  | lokiEndpointJoined
  | lokiEndpointDeparted
  | certChanged
  | clusterChanged
deriving DecidableEq

/-- The inbound notification kinds the claim lists as triggering
update_cluster. -/
def inboundEvents : List EventKind :=
  [.configChanged, .nginxPebbleReady, .nginxExporterPebbleReady,
   .s3CredentialsChanged, .s3CredentialsGone,
   .lokiEndpointJoined, .lokiEndpointDeparted,
   .certChanged, .clusterChanged]

/-- The observe calls of the constructor: collect_unit_status is always
registered; the constructor then returns early, registering nothing else,
when there are no workers, when the deployment is incoherent, or when s3 is
not ready; otherwise all remaining handlers are registered, in source
order. -/
def Coordinator.registered_handlers (c : Coordinator) : List EventKind :=
  EventKind.collectUnitStatus ::
  (if !c.cluster.has_workers then []
   else if !c.is_coherent then []
   else if c.cluster.has_workers && !c.s3_ready then []
   else inboundEvents)

/-- Whether the registered handler body for a notification kind invokes
update_cluster (directly or through _on_s3_changed), read off the handler
definitions in the source. -/
def handlerCallsUpdateCluster : EventKind → Bool
  | .collectUnitStatus => false
  | _ => true

/-- The fragment of the constructor that runs validate_roles_config before
any other component reads the configuration: construction fails exactly when
validation raises. -/
def Coordinator.construct (c : Coordinator) : Except String Coordinator :=
  match validate_roles_config c.roles_config with
  | .error e => .error e
  | .ok _ => .ok c

/-- Whether a logging unit would survive the loop body: either its endpoint
key is absent, or it parses to an object carrying a url. -/
def LokiUnit.parses (u : LokiUnit) : Bool :=
  match u.endpoint with
  | none => true
  | some none => false
  | some (some obj) => (getVal obj "url").isSome

/-- Sample s3 relation data carrying the four mandatory keys. -/
def sampleS3Data : List (String × String) :=
  [("endpoint", "s3"), ("bucket", "foo-bucket"),
   ("access-key", "ak"), ("secret-key", "sk")]

/-- Sample coordinator: one worker announcing read, minimal deployment read,
elected leader, complete s3 data, no overrides, no recommended criterion,
no logging units, TLS off. -/
def baseCoordinator : Coordinator :=
  { roles_config :=
      { roles := ["read", "write", "backend"]
        meta_roles := []
        minimal_deployment := ["read"]
        recommended_deployment := [] }
    cluster := { gathered_roles := [("read", 1)], has_workers := true }
    leader := true
    s3_data := sampleS3Data
    cert_handler := { enabled := false, server_cert := none, private_key := none, ca_cert := none }
    workers_config_value := "workers config"
    privkey_secret_id := "secret-id"
    loki_units := []
    is_coherent_override := none
    is_recommended_override := none
    tracing_receivers_getter := none }

/-- The sample coordinator on a unit that is not the elected leader. -/
def coordNotLeader : Coordinator := { baseCoordinator with leader := false }

/-- The sample coordinator with no worker relation at all. -/
def coordNoWorkers : Coordinator :=
  { baseCoordinator with cluster := { gathered_roles := [("read", 1)], has_workers := false } }

/-- One logging unit whose endpoint parses and carries a url. -/
def lokiGoodUnits : List LokiUnit :=
  [{ name := "loki/0", endpoint := some (some [("url", "http://loki:3100/loki/api/v1/push")]) }]

/-- A well-formed logging unit followed by one whose endpoint value does not
parse as JSON. -/
def lokiBadUnits : List LokiUnit :=
  [{ name := "loki/0", endpoint := some (some [("url", "http://loki:3100/loki/api/v1/push")]) },
   { name := "loki/1", endpoint := some none }]

/-- An s3 databag with all four mandatory keys present, the bucket value
being the empty string. -/
def s3EmptyBucketData : List (String × String) :=
  [("endpoint", "https://example.com"), ("bucket", ""),
   ("access-key", "ak"), ("secret-key", "sk")]

/-- An s3 databag whose endpoint has no scheme. -/
def s3dPlain : List (String × String) :=
  [("endpoint", "example.com"), ("bucket", "b"), ("access-key", "a"), ("secret-key", "s")]

/-- An s3 databag whose endpoint has the http scheme. -/
def s3dHttp : List (String × String) :=
  [("endpoint", "http://example.com"), ("bucket", "b"), ("access-key", "a"), ("secret-key", "s")]

/-- An s3 databag whose endpoint has the https scheme. -/
def s3dHttps : List (String × String) :=
  [("endpoint", "https://example.com"), ("bucket", "b"), ("access-key", "a"), ("secret-key", "s")]

/-- Boolean subset restated as bounded quantification. -/
theorem subsetB_iff (xs ys : List String) : subsetB xs ys = true ↔ ∀ x ∈ xs, x ∈ ys := by
  simp only [subsetB, List.all_eq_true, List.contains, List.elem_iff]

/-- The recommended-deployment loop succeeds exactly when every listed role
meets its minimum count. -/
theorem recommendedLoop_eq_true_iff (roles l : List (String × Nat)) :
    recommendedLoop roles l = true ↔ ∀ q ∈ l, q.2 ≤ getCount roles q.1 := by
  induction l with
  | nil => simp [recommendedLoop]
  | cons q rest ih =>
    obtain ⟨role, min_n⟩ := q
    simp only [recommendedLoop]
    by_cases h : getCount roles role < min_n
    · rw [if_pos h]
      constructor
      · intro hfalse
        exact absurd hfalse (by simp)
      · intro hall
        exact absurd (hall (role, min_n) (List.mem_cons_self _ _)) (by simp; omega)
    · rw [if_neg h, ih]
      constructor
      · intro hrest q hq
        rcases List.mem_cons.mp hq with rfl | hq2
        · simpa using Nat.le_of_not_lt h
        · exact hrest q hq2
      · intro hall q hq
        exact hall q (List.mem_cons_of_mem _ hq)

/-- Validation succeeds exactly when the four boolean subset checks hold. -/
theorem validate_ok_iff (rc : ClusterRolesConfig) :
    validate_roles_config rc = .ok () ↔
      (subsetB (rc.meta_roles.map Prod.fst) rc.roles = true ∧
       rc.meta_roles.all (fun p => subsetB p.2 rc.roles) = true ∧
       subsetB rc.minimal_deployment rc.roles = true ∧
       subsetB (rc.recommended_deployment.map Prod.fst) rc.roles = true) := by
  cases h1 : subsetB (rc.meta_roles.map Prod.fst) rc.roles <;>
    cases h2 : rc.meta_roles.all (fun p => subsetB p.2 rc.roles) <;>
      cases h3 : subsetB rc.minimal_deployment rc.roles <;>
        cases h4 : subsetB (rc.recommended_deployment.map Prod.fst) rc.roles <;>
          simp [validate_roles_config, h1, h2, h3, h4]

/-- Case analysis on dictInsert keys: either the key was present and the key
list is unchanged, or the key is appended at the end. -/
theorem keys_dictInsert_cases (d : List (String × String)) (k v : String) :
    (k ∈ d.map Prod.fst ∧ (dictInsert d k v).map Prod.fst = d.map Prod.fst) ∨
    (dictInsert d k v).map Prod.fst = d.map Prod.fst ++ [k] := by
  unfold dictInsert
  split
  · rename_i h
    rw [List.any_eq_true] at h
    obtain ⟨p, hp, hpk⟩ := h
    left
    constructor
    · rw [List.mem_map]
      exact ⟨p, hp, beq_iff_eq.mp hpk⟩
    · rw [List.map_map]
      apply List.map_congr_left
      intro q _
      by_cases hq : (q.1 == k) = true
      · simp only [Function.comp_apply, hq, if_pos]
        exact (beq_iff_eq.mp hq).symm
      · simp only [Function.comp_apply, hq]
        rw [if_neg (by simp [hq])]
  · right
    simp

/-- The inserted key is a key of the result. -/
theorem mem_keys_dictInsert_self (d : List (String × String)) (k v : String) :
    k ∈ (dictInsert d k v).map Prod.fst := by
  rcases keys_dictInsert_cases d k v with ⟨hmem, heq⟩ | heq
  · rw [heq]; exact hmem
  · rw [heq]; exact List.mem_append_right _ (List.mem_singleton.mpr rfl)

/-- Existing keys survive dictInsert. -/
theorem mem_keys_dictInsert_of_mem (d : List (String × String)) (k v a : String)
    (h : a ∈ d.map Prod.fst) : a ∈ (dictInsert d k v).map Prod.fst := by
  rcases keys_dictInsert_cases d k v with ⟨_, heq⟩ | heq
  · rw [heq]; exact h
  · rw [heq]; exact List.mem_append_left _ h

/-- When every unit parses, the loop succeeds, keeps the accumulated keys,
and records a key for every unit bearing an endpoint. -/
theorem lokiLoop_ok (units : List LokiUnit) (acc : List (String × String))
    (h : ∀ u ∈ units, u.parses = true) :
    ∃ d, lokiLoop units acc = .ok d ∧
      (∀ k, k ∈ acc.map Prod.fst → k ∈ d.map Prod.fst) ∧
      (∀ u ∈ units, u.endpoint.isSome = true → u.name ∈ d.map Prod.fst) := by
  induction units generalizing acc with
  | nil => exact ⟨acc, rfl, fun _ hk => hk, by simp⟩
  | cons u rest ih =>
    have hu : u.parses = true := h u (List.mem_cons_self _ _)
    have hrest : ∀ w ∈ rest, w.parses = true := fun w hw => h w (List.mem_cons_of_mem _ hw)
    match hE : u.endpoint with
    | none =>
      obtain ⟨d, hd, hkeys, hmem⟩ := ih acc hrest
      refine ⟨d, ?_, hkeys, ?_⟩
      · simpa [lokiLoop, hE] using hd
      · intro w hw hws
        rcases List.mem_cons.mp hw with rfl | hw2
        · rw [hE] at hws; exact absurd hws (by simp)
        · exact hmem w hw2 hws
    | some none =>
      rw [LokiUnit.parses, hE] at hu
      exact absurd hu (by simp)
    | some (some obj) =>
      rw [LokiUnit.parses, hE] at hu
      obtain ⟨url, hurl⟩ := Option.isSome_iff_exists.mp hu
      obtain ⟨d, hd, hkeys, hmem⟩ := ih (dictInsert acc u.name url) hrest
      refine ⟨d, ?_, ?_, ?_⟩
      · simpa [lokiLoop, hE, hurl] using hd
      · intro k hk
        exact hkeys k (mem_keys_dictInsert_of_mem acc u.name url k hk)
      · intro w hw _
        rcases List.mem_cons.mp hw with rfl | hw2
        · exact hkeys w.name (mem_keys_dictInsert_self acc w.name url)
        · exact hmem w hw2 (by assumption)

/-- C1: an invocation of update_cluster never reaches publish_data when the
deployment is incoherent or the local unit is not the leader, and whenever a
bundle is published both coherence and leadership hold. -/
theorem C1_publish_gated_on_coherence_and_leadership (c : Coordinator) :
    ((c.is_coherent = false ∨ c.leader = false) → c.publishes = false) ∧
    (c.publishes = true → c.is_coherent = true ∧ c.leader = true) := by
  constructor
  · intro h
    rcases h with h | h
    · simp [Coordinator.publishes, Coordinator.update_cluster, h]
    · by_cases hc : c.is_coherent = true
      · simp [Coordinator.publishes, Coordinator.update_cluster, hc, h]
      · have hc2 : c.is_coherent = false := by
          revert hc; cases c.is_coherent <;> simp
        simp [Coordinator.publishes, Coordinator.update_cluster, hc2]
  · intro h
    by_cases hc : c.is_coherent = true
    · by_cases hl : c.leader = true
      · exact ⟨hc, hl⟩
      · have hl2 : c.leader = false := by
          revert hl; cases c.leader <;> simp
        rw [Coordinator.publishes] at h
        simp [Coordinator.update_cluster, hc, hl2] at h
    · have hc2 : c.is_coherent = false := by
        revert hc; cases c.is_coherent <;> simp
      rw [Coordinator.publishes] at h
      simp [Coordinator.update_cluster, hc2] at h

/-- Witness for C1: with a non-leader unit the sample state publishes
nothing, and a state that does publish is coherent and leader. -/
theorem C1_witness :
    Coordinator.publishes coordNotLeader = false ∧
    (Coordinator.is_coherent baseCoordinator = true ∧ baseCoordinator.leader = true) :=
  ⟨(C1_publish_gated_on_coherence_and_leadership coordNotLeader).1 (Or.inr rfl),
   (C1_publish_gated_on_coherence_and_leadership baseCoordinator).2 rfl⟩

/-- C2: with no override the coordinator is coherent exactly when the keys
of the gathered role counts cover the minimal deployment, and a supplied
override function fully replaces the rule. -/
theorem C2_is_coherent_default_and_override (c : Coordinator)
    (f : ClusterProvider → ClusterRolesConfig → Bool) :
    (Coordinator.is_coherent { c with is_coherent_override := none } = true ↔
      ∀ r ∈ c.roles_config.minimal_deployment, r ∈ roleKeys c.cluster.gathered_roles) ∧
    Coordinator.is_coherent { c with is_coherent_override := some f } =
      f c.cluster c.roles_config := by
  constructor
  · show (c.roles_config.minimal_deployment.all
      (fun r => (roleKeys c.cluster.gathered_roles).contains r)) = true ↔ _
    simp only [List.all_eq_true, List.contains, List.elem_iff]
  · rfl

/-- C3: the code under verification reports the Degraded active status at a
state whose s3 integration is ready and whose is_recommended is none because
no recommended criterion is configured, where the claim expects a plain
active status. -/
theorem C3_degraded_reported_when_no_recommended_criterion :
    Coordinator.is_recommended baseCoordinator = none ∧
    Coordinator.s3_ready baseCoordinator = true ∧
    baseCoordinator.cluster.has_workers = true ∧
    Coordinator.is_coherent baseCoordinator = true ∧
    Coordinator.collect_unit_status baseCoordinator =
      [StatusEntry.active "[coordinator] Degraded."] :=
  ⟨rfl, rfl, rfl, rfl, rfl⟩

/-- Counterexample for C4: a unit whose endpoint value fails to parse as
JSON makes loki_endpoints_by_unit raise, and the raise aborts
update_cluster. -/
theorem C4_counterexample :
    loki_endpoints_by_unit lokiBadUnits = .error "JSONDecodeError" ∧
    Coordinator.update_cluster { baseCoordinator with loki_units := lokiBadUnits } =
      .error "JSONDecodeError" :=
  ⟨rfl, rfl⟩

/-- C4 amended: a unit whose relation data lacks the endpoint key is skipped
without failing; when every present endpoint parses to an object with a url,
the collection succeeds and every unit bearing an endpoint appears in the
result. -/
theorem C4_loki_collection_amended (n : String) (units : List LokiUnit)
    (h : ∀ u ∈ units, u.parses = true) :
    loki_endpoints_by_unit ({ name := n, endpoint := none } :: units) =
      loki_endpoints_by_unit units ∧
    ∃ d, loki_endpoints_by_unit units = .ok d ∧
      ∀ u ∈ units, u.endpoint.isSome = true → u.name ∈ d.map Prod.fst := by
  constructor
  · rfl
  · obtain ⟨d, hd, _, hmem⟩ := lokiLoop_ok units [] h
    exact ⟨d, hd, hmem⟩

/-- Witness for C4 amended at a concrete unit list. -/
theorem C4_witness :
    loki_endpoints_by_unit ({ name := "loki/9", endpoint := none } :: lokiGoodUnits) =
      loki_endpoints_by_unit lokiGoodUnits ∧
    ∃ d, loki_endpoints_by_unit lokiGoodUnits = .ok d ∧
      ∀ u ∈ lokiGoodUnits, u.endpoint.isSome = true → u.name ∈ d.map Prod.fst :=
  C4_loki_collection_amended "loki/9" lokiGoodUnits (by decide)

/-- Counterexample for C5: with all four keys present but an empty bucket
value the code builds the configuration and s3_ready is true, while the
claim requires a raise and a false s3_ready. -/
theorem C5_counterexample :
    getVal s3EmptyBucketData "bucket" = some "" ∧
    (s3_config s3EmptyBucketData).isOk = true ∧
    Coordinator.s3_ready { baseCoordinator with s3_data := s3EmptyBucketData } = true :=
  ⟨rfl, rfl, rfl⟩

/-- C5 amended: the s3 configuration raises exactly when the connection info
is empty or one of the four mandatory keys is absent, value emptiness
playing no role, and s3_ready is false exactly when it raises. -/
theorem C5_s3_config_amended (c : Coordinator) :
    (s3_config c.s3_data = .error "s3 integration inactive" ↔
      (c.s3_data.isEmpty = true ∨ hasKey c.s3_data "bucket" = false ∨
       hasKey c.s3_data "endpoint" = false ∨ hasKey c.s3_data "access-key" = false ∨
       hasKey c.s3_data "secret-key" = false)) ∧
    (Coordinator.s3_ready c = false ↔
      s3_config c.s3_data = .error "s3 integration inactive") := by
  have key2 : (s3_config c.s3_data).isOk = false ↔
      s3_config c.s3_data = .error "s3 integration inactive" := by
    unfold s3_config
    split <;> simp [Except.isOk, Except.toBool]
  constructor
  · unfold s3_config
    cases h0 : c.s3_data.isEmpty <;> cases h1 : hasKey c.s3_data "bucket" <;>
      cases h2 : hasKey c.s3_data "endpoint" <;> cases h3 : hasKey c.s3_data "access-key" <;>
        cases h4 : hasKey c.s3_data "secret-key" <;> simp [h0, h1, h2, h3, h4]
  · rw [Coordinator.s3_ready, ← key2]

/-- C6: a supplied override fully replaces is_recommended; with no override
the result is none when recommended_deployment is empty, and otherwise it is
true exactly when every listed role meets its minimum and false exactly when
some listed role falls strictly below it. -/
theorem C6_is_recommended_cases (c : Coordinator)
    (f : ClusterProvider → ClusterRolesConfig → Bool)
    (p : String × Nat) (rest : List (String × Nat)) :
    Coordinator.is_recommended { c with is_recommended_override := some f } =
      some (f c.cluster c.roles_config) ∧
    Coordinator.is_recommended
      { c with is_recommended_override := none,
               roles_config := { c.roles_config with recommended_deployment := [] } } = none ∧
    (Coordinator.is_recommended
      { c with is_recommended_override := none,
               roles_config := { c.roles_config with recommended_deployment := p :: rest } } =
      some true ↔ ∀ q ∈ p :: rest, q.2 ≤ getCount c.cluster.gathered_roles q.1) ∧
    (Coordinator.is_recommended
      { c with is_recommended_override := none,
               roles_config := { c.roles_config with recommended_deployment := p :: rest } } =
      some false ↔ ∃ q ∈ p :: rest, getCount c.cluster.gathered_roles q.1 < q.2) := by
  refine ⟨rfl, rfl, ?_, ?_⟩
  · show some (recommendedLoop c.cluster.gathered_roles (p :: rest)) = some true ↔ _
    rw [Option.some.injEq, recommendedLoop_eq_true_iff]
  · show some (recommendedLoop c.cluster.gathered_roles (p :: rest)) = some false ↔ _
    rw [Option.some.injEq]
    constructor
    · intro hfalse
      by_contra hno
      push_neg at hno
      have : recommendedLoop c.cluster.gathered_roles (p :: rest) = true :=
        (recommendedLoop_eq_true_iff _ _).mpr (fun q hq => hno q hq)
      rw [hfalse] at this
      exact absurd this (by simp)
    · intro ⟨q, hq, hlt⟩
      cases hB : recommendedLoop c.cluster.gathered_roles (p :: rest)
      · rfl
      · have := (recommendedLoop_eq_true_iff _ _).mp hB q hq
        omega

/-- C7: the endpoint scheme stripping maps the three inputs of the claim to
example.com, is idempotent on them, and the insecure flag computed by the
s3 configuration is true exactly for the inputs not starting with the https
scheme. -/
theorem C7_scheme_stripping :
    stripScheme "example.com" = "example.com" ∧
    stripScheme "http://example.com" = "example.com" ∧
    stripScheme "https://example.com" = "example.com" ∧
    stripScheme (stripScheme "example.com") = stripScheme "example.com" ∧
    stripScheme (stripScheme "http://example.com") = stripScheme "http://example.com" ∧
    stripScheme (stripScheme "https://example.com") = stripScheme "https://example.com" ∧
    (s3_config s3dPlain).toOption.map S3Config.endpoint = some "example.com" ∧
    (s3_config s3dHttp).toOption.map S3Config.endpoint = some "example.com" ∧
    (s3_config s3dHttps).toOption.map S3Config.endpoint = some "example.com" ∧
    (s3_config s3dPlain).toOption.map S3Config.insecure = some true ∧
    (s3_config s3dHttp).toOption.map S3Config.insecure = some true ∧
    (s3_config s3dHttps).toOption.map S3Config.insecure = some false :=
  ⟨rfl, rfl, rfl, rfl, rfl, rfl, rfl, rfl, rfl, rfl, rfl, rfl⟩

/-- C8: validation (and hence construction, which runs it first) succeeds
exactly when every referenced role, that is every meta-role alias, every
meta-role member, every minimal-deployment member and every
recommended-deployment key, is contained in the configured roles; any listed
violation makes it fail. -/
theorem C8_validate_roles_config (c : Coordinator) :
    (validate_roles_config c.roles_config = .ok () ↔
      ((∀ k ∈ c.roles_config.meta_roles.map Prod.fst, k ∈ c.roles_config.roles) ∧
       (∀ p ∈ c.roles_config.meta_roles, ∀ r ∈ p.2, r ∈ c.roles_config.roles) ∧
       (∀ r ∈ c.roles_config.minimal_deployment, r ∈ c.roles_config.roles) ∧
       (∀ k ∈ c.roles_config.recommended_deployment.map Prod.fst,
          k ∈ c.roles_config.roles))) ∧
    ((Coordinator.construct c).isOk = true ↔
      validate_roles_config c.roles_config = .ok ()) := by
  constructor
  · rw [validate_ok_iff]
    constructor
    · intro ⟨h1, h2, h3, h4⟩
      refine ⟨(subsetB_iff _ _).mp h1, ?_, (subsetB_iff _ _).mp h3, (subsetB_iff _ _).mp h4⟩
      intro p hp
      exact (subsetB_iff _ _).mp (List.all_eq_true.mp h2 p hp)
    · intro ⟨h1, h2, h3, h4⟩
      refine ⟨(subsetB_iff _ _).mpr h1, ?_, (subsetB_iff _ _).mpr h3, (subsetB_iff _ _).mpr h4⟩
      rw [List.all_eq_true]
      intro p hp
      exact (subsetB_iff _ _).mpr (h2 p hp)
  · rw [Coordinator.construct]
    cases hV : validate_roles_config c.roles_config with
    | error e => simp [hV, Except.isOk, Except.toBool]
    | ok u => cases u; simp [Except.isOk, Except.toBool]

/-- Counterexample for C9: at a construction state with no worker relation
the cluster-changed handler is not registered, though its body would invoke
update_cluster. -/
theorem C9_counterexample :
    EventKind.clusterChanged ∉ Coordinator.registered_handlers coordNoWorkers ∧
    handlerCallsUpdateCluster EventKind.clusterChanged = true := by
  constructor
  · decide
  · rfl

/-- C9 amended: when construction reaches full registration, that is the
cluster has workers, the deployment is coherent and s3 is ready, every
inbound notification kind of the claim is registered and its handler body
invokes update_cluster. -/
theorem C9_handlers_registered_amended (c : Coordinator) (k : EventKind)
    (hw : c.cluster.has_workers = true) (hc : c.is_coherent = true)
    (hs : c.s3_ready = true) (hk : k ∈ inboundEvents) :
    k ∈ Coordinator.registered_handlers c ∧ handlerCallsUpdateCluster k = true := by
  constructor
  · have hreg : Coordinator.registered_handlers c =
        EventKind.collectUnitStatus :: inboundEvents := by
      unfold Coordinator.registered_handlers
      rw [hw, hc, hs]
      rfl
    rw [hreg]
    exact List.mem_cons_of_mem _ hk
  · cases k <;> simp_all [inboundEvents, handlerCallsUpdateCluster]

/-- Witness for C9 amended at the sample coordinator and the cluster-changed
notification. -/
theorem C9_witness :
    EventKind.clusterChanged ∈ Coordinator.registered_handlers baseCoordinator ∧
    handlerCallsUpdateCluster EventKind.clusterChanged = true :=
  C9_handlers_registered_amended baseCoordinator .clusterChanged rfl rfl rfl (by decide)

/-- C10: with no override the coordinator is coherent exactly when
missing_roles is empty. -/
theorem C10_coherent_iff_no_missing_roles (c : Coordinator) :
    Coordinator.is_coherent { c with is_coherent_override := none } = true ↔
      Coordinator.missing_roles c = [] := by
  show (c.roles_config.minimal_deployment.all
    (fun r => (roleKeys c.cluster.gathered_roles).contains r)) = true ↔ _
  rw [Coordinator.missing_roles]
  simp [List.all_eq_true, List.filter_eq_nil_iff]

end Cosl
